import Mathlib

/-!
Verification development for the diagnostic-reporting subsystem of booklit
(`errors.go`).  The Go code is shallowly embedded: a source file is modelled
as the sequence of outcomes its buffered reader produces (one outcome per
`ReadLine` call), stateful writers become returned strings, and Go errors
become an explicit sum type.  All definitions are executable and translated
from `errors.go`; definitions whose name contains `Claim` transcribe the
wording of a specification claim instead, for comparison with the code.
-/

set_option maxRecDepth 8192

namespace Booklit

/-- Model of a Go `error` value as it matters to `errors.go`: `io.EOF` is
compared against by identity in `lineInQuestion`, every other error is
opaque and carried by its message. -/
inductive GoErr where
  | eof
  | other (msg : String)
deriving DecidableEq, Repr

/-- Outcome of one `bufio.Reader.ReadLine` call: a line with its trailing
newline stripped, or a failure (`io.EOF` or a genuine read error). -/
inductive ReadOutcome where
  | ok (s : String)
  | fail (e : GoErr)
deriving DecidableEq, Repr

/-- Model of a file as seen through `os.Open` + `bufio.NewReader`:
`openErr` is the result of `os.Open`; `reads` lists the outcomes of
successive `ReadLine` calls.  Once `reads` is exhausted the reader keeps
reporting `io.EOF`, as a real reader at end of file does. -/
structure FileModel where
  openErr : Option GoErr
  reads : List ReadOutcome
deriving Repr

/-- The filesystem at render time: what opening each path yields. -/
abbrev FileSystem := String → FileModel

/-- A readable file whose `ReadLine` outcomes are exactly the given lines
followed by `io.EOF`: the model of an ordinary N-line source file. -/
def fileOfLines (lines : List String) : FileModel :=
  { openErr := none, reads := lines.map ReadOutcome.ok }

/-- One `ReadLine` call: consume the next outcome, or report `io.EOF` when
the modelled outcomes are exhausted. -/
def readLine1 : List ReadOutcome → ReadOutcome × List ReadOutcome
  | [] => (ReadOutcome.fail GoErr.eof, [])
  | r :: rest => (r, rest)

/-- The discard loop of `lineInQuestion`:
`for i := 0; i < line-1; i++ { ReadLine; if err != nil { return "", err } }`.
Any failure - `io.EOF` included - is returned as the error it is. -/
def discardLines : Nat → List ReadOutcome → Except GoErr (List ReadOutcome)
  | 0, rs => Except.ok rs
  | n + 1, rs =>
    match readLine1 rs with
    | (ReadOutcome.ok _, rest) => discardLines n rest
    | (ReadOutcome.fail e, _) => Except.error e

/-- Source locations as in booklit's `ast.Location`: 1-indexed `Line` and
`Col`; `Line = 0` is the explicit "no location" sentinel. -/
structure Location where
  line : Nat
  col : Nat
deriving DecidableEq, Repr

/-- `ErrorLocation` from `errors.go`: a file path, a node location and the
length of the offending span. -/
structure ErrorLocation where
  filePath : String
  nodeLocation : Location
  length : Nat
deriving DecidableEq, Repr

/-- `ErrorLocation.lineInQuestion`: open the file, discard `line - 1`
lines (any failure there, `io.EOF` included, is returned as an error), then
read the target line; `io.EOF` at that final read alone is converted to the
empty-string "no content" result with no error. -/
def lineInQuestion (fs : FileSystem) (loc : ErrorLocation) : Except GoErr String :=
  let f := fs loc.filePath
  match f.openErr with
  | some e => Except.error e
  | none =>
    match discardLines (loc.nodeLocation.line - 1) f.reads with
    | Except.error e => Except.error e
    | Except.ok rest =>
      match readLine1 rest with
      | (ReadOutcome.ok s, _) => Except.ok s
      | (ReadOutcome.fail GoErr.eof, _) => Except.ok ""
      | (ReadOutcome.fail e, _) => Except.error e

instance : DecidableEq (Except GoErr String) := fun x y =>
  match x, y with
  | Except.ok a, Except.ok b =>
    if h : a = b then isTrue (by simp [h]) else isFalse (by simp [h])
  | Except.ok _, Except.error _ => isFalse (by simp)
  | Except.error _, Except.ok _ => isFalse (by simp)
  | Except.error e, Except.error f =>
    if h : e = f then isTrue (by simp [h]) else isFalse (by simp [h])

/-- Left-pad a string with spaces to a minimum width. -/
def padLeftTo (w : Nat) (s : String) : String :=
  String.mk (List.replicate (w - s.length) ' ') ++ s

/-- Go's `fmt.Sprintf("% 4d", n)` for the non-negative line numbers used
here: the space flag renders a space where the sign would be, and the
result is left-padded with spaces to the minimum field width 4. -/
def goSpaceMin4 (n : Nat) : String :=
  padLeftTo 4 (" " ++ toString n)

/-- A run of `n` spaces (`strings.Repeat(" ", n)`). -/
def spacesRun (n : Nat) : String := String.mk (List.replicate n ' ')

/-- A run of `n` carets (`strings.Repeat("^", n)`). -/
def caretRun (n : Nat) : String := String.mk (List.replicate n '^')

/-- The ANSI escape that starts red text, as written by `AnnotateLocation`. -/
def ansiRed : String := "\x1b[31m"

/-- The ANSI escape that resets text attributes. -/
def ansiReset : String := "\x1b[0m"

/-- `ErrorLocation.AnnotateLocation`: no output (and no error) when
`Line = 0`; otherwise read the line in question (propagating its error)
and write two lines - gutter plus raw line, then padding plus a red caret
run.  The returned string is everything written to the sink. -/
def annotateLocation (fs : FileSystem) (loc : ErrorLocation) : Except GoErr String :=
  if loc.nodeLocation.line = 0 then
    Except.ok ""
  else
    match lineInQuestion fs loc with
    | Except.error e => Except.error e
    | Except.ok line =>
      let gutter := goSpaceMin4 loc.nodeLocation.line ++ "| "
      let pad := spacesRun (gutter.length + loc.nodeLocation.col - 1)
      Except.ok (gutter ++ line ++ "\n" ++
        pad ++ ansiRed ++ caretRun loc.length ++ ansiReset ++ "\n")

/-- What `AnnotateLocation` leaves on the sink when its caller ignores the
returned error: the full two-line annotation on success, nothing when the
location is unavailable or the read failed (nothing is written before the
failing read). -/
def annotateLocationWritten (fs : FileSystem) (loc : ErrorLocation) : String :=
  match annotateLocation fs loc with
  | Except.ok s => s
  | Except.error _ => ""

/-- The prefix/annotated/suffix split of `AnnotatedHTML`: with
`offset = col - 1`, split the line at `[offset, offset + length)` when
`offset + length <= len(line)`; otherwise all three parts stay at their
zero value, the empty string. -/
def annotationSplit (line : String) (col len : Nat) : String × String × String :=
  if col - 1 + len ≤ line.length then
    (line.take (col - 1), (line.drop (col - 1)).take len, line.drop (col - 1 + len))
  else
    ("", "", "")

/-- `AnnotationData` from `errors.go` (the Go field names are `FilePath`,
`EOF`, `Lineno`, `Prefix`, `Annotated`, `Suffix`; the first split part is
called `front` here). -/
structure AnnotationData where
  filePath : String
  eof : Bool
  front : String
  annotated : String
  suffix : String
  lineno : String
deriving DecidableEq, Repr

/-- The `AnnotationData` value `AnnotatedHTML` builds for a successfully
read line: `EOF` is set exactly when the line content is the empty string,
and the split degrades to empty parts out of range. -/
def annotationDataFor (loc : ErrorLocation) (line : String) : AnnotationData :=
  let t := annotationSplit line loc.nodeLocation.col loc.length
  { filePath := loc.filePath
    eof := line == ""
    front := t.1
    annotated := t.2.1
    suffix := t.2.2
    lineno := goSpaceMin4 loc.nodeLocation.line }

/-- `ErrorLocation.AnnotatedHTML` up to template execution: `none` when the
location is unavailable, the propagated read error on failure, and
otherwise the `AnnotationData` handed to the `annotated-line.tmpl`
template. -/
def annotatedHTMLData (fs : FileSystem) (loc : ErrorLocation) :
    Except GoErr (Option AnnotationData) :=
  if loc.nodeLocation.line = 0 then
    Except.ok none
  else
    match lineInQuestion fs loc with
    | Except.error e => Except.error e
    | Except.ok line => Except.ok (some (annotationDataFor loc line))

/-- `ErrorLocation.Annotate`: prefix the message with `"path: "` when
`Line = 0` and with `"path:line: "` otherwise (the two enclosing
`fmt.Sprintf` calls use constant format strings and are safe). -/
def annotate (loc : ErrorLocation) (msg : String) : String :=
  if loc.nodeLocation.line = 0 then
    loc.filePath ++ ": " ++ msg
  else
    loc.filePath ++ ":" ++ toString loc.nodeLocation.line ++ ": " ++ msg

/-- Go's `fmt` format scan for a format string given NO arguments, on the
character list: `%%` prints one percent, a verb with a missing argument
prints `%!v(MISSING)`, a trailing bare percent prints `%!(NOVERB)`, and
everything else is copied.  (Flag/width parsing is not modelled; the
format strings reaching this function in the development use plain verbs.) -/
def goFormatNoArgsAux : List Char → List Char
  | [] => []
  | '%' :: rest =>
    match rest with
    | [] => "%!(NOVERB)".toList
    | '%' :: rest2 => '%' :: goFormatNoArgsAux rest2
    | c :: rest2 => '%' :: '!' :: c :: ("(MISSING)".toList ++ goFormatNoArgsAux rest2)
  | c :: rest => c :: goFormatNoArgsAux rest

/-- What `fmt.Fprintf(out, s)` writes when `s` is passed as the format
string with no further arguments, as the `PrettyPrint` methods do. -/
def goFormatNoArgs (s : String) : String :=
  String.mk (goFormatNoArgsAux s.toList)

/-- `ParseError` from `errors.go`: the nested error is carried by the
string its `Error()` method returns, plus the embedded `ErrorLocation`. -/
structure ParseError where
  err : String
  errorLocation : ErrorLocation
deriving DecidableEq, Repr

/-- `ParseError.PrettyPrint`: the code passes the assembled narrative as
the FORMAT string of `fmt.Fprintf` with no arguments (so percent signs in
it are interpreted as verbs), then calls `AnnotateLocation` and discards
its returned error. -/
def parseErrorPrettyPrint (fs : FileSystem) (pe : ParseError) : String :=
  goFormatNoArgs (annotate pe.errorLocation ("parse error: " ++ pe.err ++ "\n\n")) ++
    annotateLocationWritten fs pe.errorLocation

/-- `AmbiguousReferenceError` from `errors.go`. -/
structure AmbiguousReferenceError where
  tagName : String
  definedLocations : List ErrorLocation
  errorLocation : ErrorLocation
deriving DecidableEq, Repr

/-- `AmbiguousReferenceError.Error()`. -/
def ambiguousSummary (e : AmbiguousReferenceError) : String :=
  "ambiguous target for tag '" ++ e.tagName ++ "'"

/-- Model of `textio.NewPrefixWriter(out, p)` on a newline-terminated
stream: every line written through it comes out prefixed with `p`.  (The
annotation fed through it by `AmbiguousReferenceError.PrettyPrint` is
either empty or two newline-terminated lines.) -/
def splitNLAux : List Char → List Char → List (List Char)
  | [], acc => [acc.reverse]
  | c :: rest, acc =>
    if c = '\n' then acc.reverse :: splitNLAux rest []
    else splitNLAux rest (c :: acc)

/-- Split a character list at every newline, like `strings.Split` on
`"\n"`: n newlines yield n+1 pieces, none containing a newline. -/
def splitNL (s : String) : List String :=
  (splitNLAux s.toList []).map String.mk

def indentLines (p : String) (s : String) : String :=
  String.join ((splitNL s).dropLast.map (fun l => p ++ l ++ "\n"))

/-- `AmbiguousReferenceError.PrettyPrint`: summary narrative (again routed
through `Fprintf` as a format string), the primary location's annotation
with its error discarded, the defined-locations listing in order - each a
`"- path:\n"` line (constant format, safe) and the location's annotation
pushed through a two-space prefix writer - and the closing line. -/
def ambiguousReferencePrettyPrint (fs : FileSystem) (e : AmbiguousReferenceError) : String :=
  goFormatNoArgs (annotate e.errorLocation (ambiguousSummary e ++ ":\n\n")) ++
    annotateLocationWritten fs e.errorLocation ++
    "the same tag was defined in the following locations:\n\n" ++
    String.join (e.definedLocations.map (fun l =>
      "- " ++ l.filePath ++ ":\n" ++ indentLines "  " (annotateLocationWritten fs l))) ++
    "one of these must be changed.\n"

/-- Execution of one named template against one value: what it wrote to the
sink before finishing, and the error it returned (template execution can
fail after producing partial output). -/
structure TemplateExec where
  written : String
  execErr : Option String
deriving DecidableEq, Repr

/-- The registry of named templates at render time, as the behaviour each
name's template exhibits on the value being rendered. -/
abbrev TemplateRegistry := TemplateExec → TemplateExec

/-- The name `ErrorPage` looks up for its entry-point template:
`errorTmpl.Lookup("page.tmpl")`. -/
def pageTemplateName : String := "page.tmpl"

/-- The name `AnnotatedHTML` looks up: `errorTmpl.Lookup("annotated-line.tmpl")`. -/
def annotatedLineTemplateName : String := "annotated-line.tmpl"

/-- `ErrorPage(err, w)`: execute the template registered under
`pageTemplateName` against the error; when execution fails, append the
constant-format fallback `"failed to render error page: <renderErr>"` to
whatever the template already wrote.  The function returns the sink's
contents and has no error channel, exactly as the Go function returns
nothing. -/
def errorPage (registry : String → TemplateExec) : String :=
  let t := registry pageTemplateName
  match t.execErr with
  | none => t.written
  | some e => t.written ++ "failed to render error page: " ++ e

/-- The closed sum of diagnostic kinds defined in `errors.go`. -/
inductive Diagnostic where
  | parseFailure (err : String) (loc : ErrorLocation)
  | unknownTag (tagName : String) (loc : ErrorLocation)
  | ambiguousReference (tagName : String) (definedLocations : List ErrorLocation)
      (loc : ErrorLocation)
  | undefinedFunction (function : String) (loc : ErrorLocation)
  | failedFunction (function : String) (err : String) (loc : ErrorLocation)
deriving DecidableEq, Repr

/-- The template name each kind's `PrettyHTML` passes to
`errorTmpl.Lookup`, read off the five `Lookup` calls in `errors.go`. -/
def richTemplateName : Diagnostic → String
  | Diagnostic.parseFailure .. => "parse-error.tmpl"
  | Diagnostic.unknownTag .. => "unknown-tag.tmpl"
  | Diagnostic.ambiguousReference .. => "ambiguous-reference.tmpl"
  | Diagnostic.undefinedFunction .. => "undefined-function.tmpl"
  | Diagnostic.failedFunction .. => "function-error.tmpl"

/-! ## Specification-side definitions

Each of the following transcribes the wording of one claim (not the code),
for comparison with the definitions above. -/

/-- Rendering of one annotated line with the gutter exactly as claim C5
words it: a right-aligned line-number field of fixed 4-character minimum
width that widens only when the number needs more than 4 digits, then the
literal "| " and the raw line; then (gutter width + column - 1) spaces and
a red caret run. -/
def gutterClaimC5 (n : Nat) : String :=
  padLeftTo 4 (toString n)

/-- The two annotation lines as claim C5 describes them, built from the
claim's gutter. -/
def annotateRenderClaimC5 (loc : ErrorLocation) (line : String) : String :=
  let gutter := gutterClaimC5 loc.nodeLocation.line ++ "| "
  gutter ++ line ++ "\n" ++
    spacesRun (gutter.length + loc.nodeLocation.col - 1) ++
    ansiRed ++ caretRun loc.length ++ ansiReset ++ "\n"

/-- The two annotation lines as the amended claim C5 describes them: the
line-number field renders a space where the sign would be and is
left-padded to minimum width 4 (so it widens as soon as the number has
four or more digits); everything else is as the original claim states. -/
def annotateRenderAmended (loc : ErrorLocation) (line : String) : String :=
  let gutter := goSpaceMin4 loc.nodeLocation.line ++ "| "
  gutter ++ line ++ "\n" ++
    spacesRun (gutter.length + loc.nodeLocation.col - 1) ++
    ansiRed ++ caretRun loc.length ++ ansiReset ++ "\n"

/-- Plain rendering of a `ParseError` as claim C2 words it: a source-read
failure during annotation is propagated to the renderer's caller as an
explicit render error, never swallowed. -/
def plainRenderClaimC2 (fs : FileSystem) (pe : ParseError) : Except GoErr String :=
  match annotateLocation fs pe.errorLocation with
  | Except.error e => Except.error e
  | Except.ok ann =>
    Except.ok (goFormatNoArgs
      (annotate pe.errorLocation ("parse error: " ++ pe.err ++ "\n\n")) ++ ann)

/-- Tail of the `AmbiguousReference` plain narrative as claim C7 words it:
the heading line, then one `"- path:\n"` line per defined location in the
order supplied, each followed by that location's annotation with every
line indented by two spaces, then the literal closing line. -/
def ambiguousTailClaimC7 (fs : FileSystem) (locs : List ErrorLocation) : String :=
  "the same tag was defined in the following locations:\n\n" ++
    String.join (locs.map (fun l =>
      "- " ++ l.filePath ++ ":\n" ++ indentLines "  " (annotateLocationWritten fs l))) ++
    "one of these must be changed.\n"

/-- The template base names claim C9 expects for the five kinds. -/
def specKindName : Diagnostic → String
  | Diagnostic.parseFailure .. => "parse-error"
  | Diagnostic.unknownTag .. => "unknown-tag"
  | Diagnostic.ambiguousReference .. => "ambiguous-reference"
  | Diagnostic.undefinedFunction .. => "undefined-function"
  | Diagnostic.failedFunction .. => "function-error"

/-- A filesystem on which every open fails, and a `ParseError` placed at
line 3 of the unreadable file: the concrete input for claim C2. -/
def fsOpenFail : FileSystem :=
  fun _ => { openErr := some (GoErr.other "open f.lit: permission denied"), reads := [] }

def peC2 : ParseError := ⟨"oops", ⟨"f.lit", ⟨3, 1⟩, 1⟩⟩

/-- A 1000-line readable file and an error location on its line 1000: the
concrete input at which the gutter of claim C5 and the gutter the code
produces differ. -/
def fs1000 : FileSystem := fun _ => fileOfLines (List.replicate 1000 "x")

def loc1000 : ErrorLocation := ⟨"f.lit", ⟨1000, 1⟩, 1⟩

/-- A registry whose page template always fails after partial output. -/
def regFailC8 : String → TemplateExec :=
  fun _ => { written := "<!DOCTYPE html>", execErr := some "template: page.tmpl: boom" }

/-! ## Shared lemmas -/

theorem discardLines_map_ok_le (lines : List String) (n : Nat) (h : n ≤ lines.length) :
    discardLines n (lines.map ReadOutcome.ok) =
      Except.ok ((lines.drop n).map ReadOutcome.ok) := by
  induction lines generalizing n with
  | nil =>
    have hn : n = 0 := Nat.le_zero.mp h
    subst hn
    rfl
  | cons a t ih =>
    cases n with
    | zero => rfl
    | succ m =>
      simp only [List.map_cons, discardLines, readLine1, List.drop_succ_cons]
      exact ih m (Nat.le_of_succ_le_succ h)

theorem discardLines_map_ok_gt (lines : List String) (n : Nat) (h : lines.length < n) :
    discardLines n (lines.map ReadOutcome.ok) = Except.error GoErr.eof := by
  induction lines generalizing n with
  | nil =>
    cases n with
    | zero => exact absurd h (Nat.lt_irrefl 0)
    | succ m => rfl
  | cons a t ih =>
    cases n with
    | zero => exact absurd h (Nat.not_lt_zero _)
    | succ m =>
      simp only [List.map_cons, discardLines, readLine1]
      exact ih m (Nat.lt_of_succ_lt_succ h)

theorem lineInQuestion_fileOfLines_at_eof (lines : List String) (f : String) (col len : Nat) :
    lineInQuestion (fun _ => fileOfLines lines) ⟨f, ⟨lines.length + 1, col⟩, len⟩ =
      Except.ok "" := by
  have h1 : discardLines lines.length (lines.map ReadOutcome.ok) =
      Except.ok ([] : List ReadOutcome) := by
    rw [discardLines_map_ok_le lines lines.length (Nat.le_refl _), List.drop_length]
    rfl
  simp [lineInQuestion, fileOfLines, h1, readLine1]

theorem lineInQuestion_fileOfLines_past (lines : List String) (f : String)
    (line col len : Nat) (h : lines.length + 2 ≤ line) :
    lineInQuestion (fun _ => fileOfLines lines) ⟨f, ⟨line, col⟩, len⟩ =
      Except.error GoErr.eof := by
  have h1 : discardLines (line - 1) (lines.map ReadOutcome.ok) =
      Except.error GoErr.eof :=
    discardLines_map_ok_gt lines (line - 1) (by omega)
  simp [lineInQuestion, fileOfLines, h1]

theorem annotateLocation_of_ok (fs : FileSystem) (loc : ErrorLocation) (s : String)
    (h1 : loc.nodeLocation.line ≠ 0) (h2 : lineInQuestion fs loc = Except.ok s) :
    annotateLocation fs loc = Except.ok (annotateRenderAmended loc s) := by
  unfold annotateLocation annotateRenderAmended
  rw [if_neg h1, h2]

theorem annotatedHTMLData_of_ok (fs : FileSystem) (loc : ErrorLocation) (s : String)
    (h1 : loc.nodeLocation.line ≠ 0) (h2 : lineInQuestion fs loc = Except.ok s) :
    annotatedHTMLData fs loc = Except.ok (some (annotationDataFor loc s)) := by
  unfold annotatedHTMLData
  rw [if_neg h1, h2]

/-! ## Claims -/

/-- Claim C1, counterexample: in a readable 1-line file, requesting
line 3 hits `io.EOF` inside the discard loop, which `lineInQuestion`
returns as an error - not the empty no-content sentinel the claim
promises for every line number past the end of the file. -/
theorem lineInQuestion_eof_in_discard_is_error :
    (["a"] : List String).length < 3 ∧
    lineInQuestion (fun _ => fileOfLines ["a"]) ⟨"f.lit", ⟨3, 1⟩, 0⟩ =
      Except.error GoErr.eof := by
  constructor
  · decide
  · rfl

/-- Claim C1 (amended): for a readable file of N lines and a requested
line strictly past N, `lineInQuestion` returns the empty no-content
sentinel only when the requested line is exactly N + 1 (end of file hit at
the read of the target line itself); when the requested line is N + 2 or
more, end of file is hit while discarding the preceding lines and is
returned as the error `io.EOF`. -/
theorem lineInQuestion_past_eof_characterization (lines : List String)
    (f : String) (line col len : Nat) (h : lines.length < line) :
    lineInQuestion (fun _ => fileOfLines lines) ⟨f, ⟨line, col⟩, len⟩ =
      if line = lines.length + 1 then Except.ok "" else Except.error GoErr.eof := by
  by_cases heq : line = lines.length + 1
  · rw [if_pos heq, heq]
    exact lineInQuestion_fileOfLines_at_eof lines f col len
  · rw [if_neg heq]
    exact lineInQuestion_fileOfLines_past lines f line col len (by omega)

/-- Witness for C1 (amended) at a concrete input: a 1-line file read at
line 2 yields the empty sentinel. -/
theorem lineInQuestion_past_eof_characterization_witness :
    lineInQuestion (fun _ => fileOfLines ["a"]) ⟨"f.lit", ⟨2, 1⟩, 0⟩ =
      Except.ok "" := by
  have h := lineInQuestion_past_eof_characterization ["a"] "f.lit" 2 1 0 (by decide)
  simpa using h

/-- Claim C2, counterexample: when the source file cannot be opened, the
claim's reading of the plain path would surface the failure, but
`ParseError.PrettyPrint` discards the error `AnnotateLocation` returns -
it completes normally, leaving only the narrative header on the sink, and
no error ever reaches its caller (its Go signature has no error result). -/
theorem prettyPrint_swallows_read_failure :
    plainRenderClaimC2 fsOpenFail peC2 =
      Except.error (GoErr.other "open f.lit: permission denied") ∧
    parseErrorPrettyPrint fsOpenFail peC2 = "f.lit:3: parse error: oops\n\n" := by
  constructor
  · rfl
  · rfl

/-- Claim C2 (amended): a failure to open or read the source file is
propagated as an explicit render error by `AnnotateLocation` and by the
hypertext path `AnnotatedHTML`; the plain-narrative path `PrettyPrint`,
however, discards that error and completes with the narrative header
alone - only the hypertext rendering surfaces the failure to the
renderer's caller. -/
theorem annotate_failure_propagation (fs : FileSystem) (pe : ParseError) (e : GoErr)
    (h1 : pe.errorLocation.nodeLocation.line ≠ 0)
    (h2 : lineInQuestion fs pe.errorLocation = Except.error e) :
    annotateLocation fs pe.errorLocation = Except.error e ∧
    annotatedHTMLData fs pe.errorLocation = Except.error e ∧
    parseErrorPrettyPrint fs pe =
      goFormatNoArgs (annotate pe.errorLocation ("parse error: " ++ pe.err ++ "\n\n")) := by
  have ha : annotateLocation fs pe.errorLocation = Except.error e := by
    unfold annotateLocation
    rw [if_neg h1, h2]
  refine ⟨ha, ?_, ?_⟩
  · unfold annotatedHTMLData
    rw [if_neg h1, h2]
  · unfold parseErrorPrettyPrint annotateLocationWritten
    rw [ha]
    simp

/-- Witness for C2 (amended) at the concrete unreadable-file input. -/
theorem annotate_failure_propagation_witness :
    annotateLocation fsOpenFail peC2.errorLocation =
      Except.error (GoErr.other "open f.lit: permission denied") ∧
    annotatedHTMLData fsOpenFail peC2.errorLocation =
      Except.error (GoErr.other "open f.lit: permission denied") ∧
    parseErrorPrettyPrint fsOpenFail peC2 =
      goFormatNoArgs (annotate peC2.errorLocation ("parse error: " ++ peC2.err ++ "\n\n")) :=
  annotate_failure_propagation fsOpenFail peC2 _ (by decide) rfl

/-- Claim C3, counterexample: line 1 of a 1-line file whose only line is
the empty string is in range, yet the annotated view produced for it has
`EOF = true`, because `AnnotatedHTML` sets the flag whenever the line
content is the empty string. -/
theorem annotationData_eof_true_on_inrange_empty_line :
    1 ≤ ([""] : List String).length ∧
    annotatedHTMLData (fun _ => fileOfLines [""]) ⟨"f.lit", ⟨1, 1⟩, 0⟩ =
      Except.ok (some ⟨"f.lit", true, "", "", "", "   1"⟩) := by
  constructor
  · decide
  · rfl

/-- Claim C3 (amended): in every annotated view `AnnotatedHTML` produces,
the `EOF` flag is true exactly when the line content that was read is the
empty string - which happens both when the requested line is just past
the last readable line and when an in-range line's content is empty. -/
theorem annotationData_eof_iff_empty_content (fs : FileSystem) (loc : ErrorLocation)
    (s : String) (h1 : loc.nodeLocation.line ≠ 0)
    (h2 : lineInQuestion fs loc = Except.ok s) :
    annotatedHTMLData fs loc = Except.ok (some (annotationDataFor loc s)) ∧
    ((annotationDataFor loc s).eof = true ↔ s = "") := by
  refine ⟨annotatedHTMLData_of_ok fs loc s h1 h2, ?_⟩
  simp [annotationDataFor]

/-- Witness for C3 (amended) at a concrete in-range read. -/
theorem annotationData_eof_iff_empty_content_witness :
    annotatedHTMLData (fun _ => fileOfLines ["ab"]) ⟨"f.lit", ⟨1, 1⟩, 1⟩ =
      Except.ok (some (annotationDataFor ⟨"f.lit", ⟨1, 1⟩, 1⟩ "ab")) ∧
    ((annotationDataFor ⟨"f.lit", ⟨1, 1⟩, 1⟩ "ab").eof = true ↔ "ab" = "") :=
  annotationData_eof_iff_empty_content (fun _ => fileOfLines ["ab"])
    ⟨"f.lit", ⟨1, 1⟩, 1⟩ "ab" (by decide) rfl

/-- Claim C4: whenever the window `(column - 1) + length` exceeds the
line's length, the prefix/annotated/suffix split of `AnnotatedHTML`
degrades to three empty strings (and, being a total function, cannot
crash or index out of bounds). -/
theorem annotationSplit_out_of_range_empty (line : String) (col len : Nat)
    (_hc : 1 ≤ col) (h : line.length < col - 1 + len) :
    annotationSplit line col len = ("", "", "") := by
  unfold annotationSplit
  rw [if_neg (by omega)]

/-- Witness for C4 at a concrete out-of-range window. -/
theorem annotationSplit_out_of_range_empty_witness :
    annotationSplit "ab" 2 5 = ("", "", "") :=
  annotationSplit_out_of_range_empty "ab" 2 5 (by decide) (by decide)

/-- Claim C5, counterexample: at line 1000 - a number needing no more
than 4 digits - Go's `% 4d` still prints a space where the sign would be,
so the gutter is the 7-character `" 1000| "` and not the 6-character
`"1000| "` the claim's fixed-4-width gutter yields; the two renderings of
the same successfully read line differ. -/
theorem annotateLocation_gutter_widens_at_four_digits :
    lineInQuestion fs1000 loc1000 = Except.ok "x" ∧
    annotateLocation fs1000 loc1000 =
      Except.ok (" 1000| x\n       " ++ ansiRed ++ "^" ++ ansiReset ++ "\n") ∧
    annotateRenderClaimC5 loc1000 "x" =
      "1000| x\n      " ++ ansiRed ++ "^" ++ ansiReset ++ "\n" ∧
    annotateLocation fs1000 loc1000 ≠ Except.ok (annotateRenderClaimC5 loc1000 "x") := by
  refine ⟨?_, ?_, ?_, ?_⟩ <;> decide

/-- Claim C5 (amended): for every location with a nonzero line and a
column at least 1 whose line is read successfully, `AnnotateLocation`
writes exactly the two lines of `annotateRenderAmended`: the line-number
field rendered with a space in the sign position and left-padded to
minimum width 4 (so 4 characters for numbers up to three digits, widening
from four digits on), the literal "| " and the raw line; then
(gutter width + column - 1) spaces and a run of exactly `length` carets
wrapped in the ANSI red escape and closed by the ANSI reset. -/
theorem annotateLocation_render_characterization (fs : FileSystem) (loc : ErrorLocation)
    (s : String) (h1 : loc.nodeLocation.line ≠ 0) (_hc : 1 ≤ loc.nodeLocation.col)
    (h2 : lineInQuestion fs loc = Except.ok s) :
    annotateLocation fs loc = Except.ok (annotateRenderAmended loc s) :=
  annotateLocation_of_ok fs loc s h1 h2

/-- Witness for C5 (amended) at a concrete successful read. -/
theorem annotateLocation_render_characterization_witness :
    annotateLocation (fun _ => fileOfLines ["hello"]) ⟨"f.lit", ⟨1, 2⟩, 3⟩ =
      Except.ok (annotateRenderAmended ⟨"f.lit", ⟨1, 2⟩, 3⟩ "hello") :=
  annotateLocation_render_characterization (fun _ => fileOfLines ["hello"])
    ⟨"f.lit", ⟨1, 2⟩, 3⟩ "hello" (by decide) (by decide) rfl

/-- Claim C6: evaluation of `ParseError.PrettyPrint` at the failing input.
The assembled narrative is correct - `Annotate` produces
`"doc%s.lit: parse error: oops\n\n"` with the claimed `"path: "` prefix
for `line = 0` - but `PrettyPrint` then passes that narrative to
`fmt.Fprintf` as its format string with no arguments, so the `%s` in the
file path is consumed as a verb and the sink receives
`"doc%!s(MISSING).lit: ..."` instead of the literal text. -/
theorem parseError_prettyPrint_mangles_percent :
    annotate ⟨"doc%s.lit", ⟨0, 0⟩, 0⟩ ("parse error: oops\n\n") =
      "doc%s.lit: parse error: oops\n\n" ∧
    parseErrorPrettyPrint (fun _ => fileOfLines []) ⟨"oops", ⟨"doc%s.lit", ⟨0, 0⟩, 0⟩⟩ =
      "doc%!s(MISSING).lit: parse error: oops\n\n" ∧
    annotate ⟨"f.lit", ⟨3, 1⟩, 1⟩ ("parse error: oops\n\n") =
      "f.lit:3: parse error: oops\n\n" := by
  refine ⟨rfl, rfl, rfl⟩

/-- Claim C7: `AmbiguousReferenceError.PrettyPrint` emits, after its
summary line and the primary location's annotation, exactly the tail the
claim describes - the heading line, one `"- path:\n"` line per defined
location in the order supplied, each followed by that location's
annotation with every line indented by two spaces, and the literal
closing line. -/
theorem ambiguousReference_prettyPrint_listing (fs : FileSystem)
    (e : AmbiguousReferenceError) :
    ambiguousReferencePrettyPrint fs e =
      goFormatNoArgs (annotate e.errorLocation (ambiguousSummary e ++ ":\n\n")) ++
        annotateLocationWritten fs e.errorLocation ++
        ambiguousTailClaimC7 fs e.definedLocations := by
  unfold ambiguousReferencePrettyPrint ambiguousTailClaimC7
  simp [String.append_assoc]

/-- Claim C8: when executing the page template fails, `ErrorPage` appends
the literal fallback `"failed to render error page: <render_error>"` to
whatever the template wrote; being modelled (like the Go original) as a
function with no error result, it can propagate nothing to its caller. -/
theorem errorPage_fallback_no_propagation (registry : String → TemplateExec)
    (e : String) (h : (registry pageTemplateName).execErr = some e) :
    errorPage registry =
      (registry pageTemplateName).written ++ "failed to render error page: " ++ e := by
  simp only [errorPage]
  rw [h]

/-- Witness for C8 at a concrete always-failing page template. -/
theorem errorPage_fallback_no_propagation_witness :
    errorPage regFailC8 =
      "<!DOCTYPE html>" ++ "failed to render error page: " ++ "template: page.tmpl: boom" :=
  errorPage_fallback_no_propagation regFailC8 _ rfl

/-- Claim C9, counterexample: the template `ParseError.PrettyHTML`
executes is registered under `"parse-error.tmpl"`, not `"parse-error"`,
and the entry point `ErrorPage` looks up is `"page.tmpl"`, not `"page"` -
the registry indexes templates by base file name including the `.tmpl`
extension. -/
theorem template_names_carry_tmpl_extension :
    richTemplateName (Diagnostic.parseFailure "e" ⟨"f.lit", ⟨0, 0⟩, 0⟩) =
      "parse-error.tmpl" ∧
    richTemplateName (Diagnostic.parseFailure "e" ⟨"f.lit", ⟨0, 0⟩, 0⟩) ≠ "parse-error" ∧
    pageTemplateName ≠ "page" ∧
    annotatedLineTemplateName ≠ "annotated-line" := by
  refine ⟨rfl, by decide, by decide, by decide⟩

/-- Claim C9 (amended): each diagnostic kind executes the template
registered under the claimed name suffixed with `".tmpl"`, the entry
point executed by `ErrorPage` is named `"page.tmpl"`, and the shared
annotated-line partial is `"annotated-line.tmpl"`. -/
theorem template_names_tmpl_suffix (d : Diagnostic) :
    richTemplateName d = specKindName d ++ ".tmpl" ∧
    pageTemplateName = "page" ++ ".tmpl" ∧
    annotatedLineTemplateName = "annotated-line" ++ ".tmpl" := by
  refine ⟨?_, rfl, rfl⟩
  cases d <;> rfl

/-- Claim C10: on an out-of-range span over a successfully read line, the
plain renderer still emits the full two-line annotation - the caret line
carries exactly `length` carets at offset gutter + column - 1, past the
end of the displayed line - while the hypertext path degrades the same
span to three empty substrings; the two renderings diverge exactly as the
code has it. -/
theorem plain_html_divergence_out_of_range (fs : FileSystem) (loc : ErrorLocation)
    (s : String) (h1 : loc.nodeLocation.line ≠ 0) (_hc : 1 ≤ loc.nodeLocation.col)
    (h2 : lineInQuestion fs loc = Except.ok s)
    (h3 : s.length < loc.nodeLocation.col - 1 + loc.length) :
    annotateLocation fs loc = Except.ok (annotateRenderAmended loc s) ∧
    annotatedHTMLData fs loc = Except.ok (some (annotationDataFor loc s)) ∧
    (annotationDataFor loc s).front = "" ∧
    (annotationDataFor loc s).annotated = "" ∧
    (annotationDataFor loc s).suffix = "" := by
  have hsp : annotationSplit s loc.nodeLocation.col loc.length = ("", "", "") := by
    unfold annotationSplit
    rw [if_neg (by omega)]
  refine ⟨annotateLocation_of_ok fs loc s h1 h2,
    annotatedHTMLData_of_ok fs loc s h1 h2, ?_, ?_, ?_⟩ <;>
    simp [annotationDataFor, hsp]

/-- Witness for C10 at a concrete out-of-range span. -/
theorem plain_html_divergence_out_of_range_witness :
    annotateLocation (fun _ => fileOfLines ["ab"]) ⟨"f.lit", ⟨1, 2⟩, 5⟩ =
      Except.ok (annotateRenderAmended ⟨"f.lit", ⟨1, 2⟩, 5⟩ "ab") ∧
    annotatedHTMLData (fun _ => fileOfLines ["ab"]) ⟨"f.lit", ⟨1, 2⟩, 5⟩ =
      Except.ok (some (annotationDataFor ⟨"f.lit", ⟨1, 2⟩, 5⟩ "ab")) ∧
    (annotationDataFor ⟨"f.lit", ⟨1, 2⟩, 5⟩ "ab").front = "" ∧
    (annotationDataFor ⟨"f.lit", ⟨1, 2⟩, 5⟩ "ab").annotated = "" ∧
    (annotationDataFor ⟨"f.lit", ⟨1, 2⟩, 5⟩ "ab").suffix = "" :=
  plain_html_divergence_out_of_range (fun _ => fileOfLines ["ab"])
    ⟨"f.lit", ⟨1, 2⟩, 5⟩ "ab" (by decide) (by decide) rfl (by decide)

end Booklit
